import Mathlib

/-!
Verification development for the request-dispatch core of a minimalist HTTP
middleware framework (src/lib/application.js): context construction
(`createContext`), request dispatch (`handleRequest`), response finalization
(`respond`) and the default error handler (`onerror`).

JavaScript values that matter to the control flow (the `ctx.respond` bypass
flag, non-error thrown values) are modelled by the inductive `JsVal`; machine
strings are Lean `String`s with `String.utf8ByteSize` playing the role of
`Buffer.byteLength`; the transport response handle is an explicit record and
`res.end` is explicit state passing.
-/

/-- A JavaScript runtime value, as far as the dispatcher inspects one:
booleans, numbers, strings, `null` and `undefined`.  Used for the
`ctx.respond` bypass flag (checked with strict equality `false === ctx.respond`)
and for non-error thrown values. -/
inductive JsVal where
  | bool (b : Bool)
  | num (n : Int)
  | str (s : String)
  | nullV
  | undef
deriving DecidableEq, Repr

/-- A minimal JSON-serializable structured value, standing for the plain
objects/arrays a handler may assign to `ctx.body`. -/
inductive JsonVal where
  | jnull
  | jbool (b : Bool)
  | jnum (n : Int)
  | jstr (s : String)
  | jarr (l : List JsonVal)
  | jobj (l : List (String × JsonVal))

/-- JSON string escaping for the characters `JSON.stringify` always escapes. -/
def escapeJsonChar (c : Char) : String :=
  if c = '"' then "\\\""
  else if c = '\\' then "\\\\"
  else if c = '\n' then "\\n"
  else if c = '\r' then "\\r"
  else if c = '\t' then "\\t"
  else String.singleton c

/-- Quote and escape a string as `JSON.stringify` does. -/
def jsonQuote (s : String) : String :=
  "\"" ++ String.join (s.data.map escapeJsonChar) ++ "\""

mutual

/-- `JSON.stringify` on the modelled fragment of JSON values
(line 308 of application.js serializes structured bodies with it). -/
def jsonStringify : JsonVal → String
  | .jnull => "null"
  | .jbool b => if b then "true" else "false"
  | .jnum n => toString n
  | .jstr s => jsonQuote s
  | .jarr l => "[" ++ jsonStringifyArr l ++ "]"
  | .jobj l => "\x7b" ++ jsonStringifyObj l ++ "\x7d"

/-- Comma-separated serialization of a JSON array's elements. -/
def jsonStringifyArr : List JsonVal → String
  | [] => ""
  | [v] => jsonStringify v
  | v :: vs => jsonStringify v ++ "," ++ jsonStringifyArr vs

/-- Comma-separated serialization of a JSON object's key/value pairs. -/
def jsonStringifyObj : List (String × JsonVal) → String
  | [] => ""
  | [(k, v)] => jsonQuote k ++ ":" ++ jsonStringify v
  | (k, v) :: kvs => jsonQuote k ++ ":" ++ jsonStringify v ++ "," ++ jsonStringifyObj kvs

end

/-- The body value held on the context: one of absent (`null`/`undefined`),
a raw byte sequence (`Buffer`), a textual string, a streaming source
(identified by a handle), or a structured JSON-serializable value. -/
inductive Body where
  | absent
  | bytes (l : List Nat)
  | str (s : String)
  | stream (id : Nat)
  | json (v : JsonVal)

/-- A payload written by `res.end`: raw bytes or text. -/
inductive Payload where
  | bytes (l : List Nat)
  | text (s : String)
deriving DecidableEq, Repr

/-- The transport-level (Node) response handle, holding the status line, the
headers the finalizer touches, and the terminal write state. -/
structure Res where
  statusCode : Nat
  statusMessage : String
  headersSent : Bool
  contentLength : Option Nat
  contentType : Option String
  transferEncoding : Option String
  socketWritable : Bool
  ended : Bool
  payload : Option Payload
  endCount : Nat
  piped : Option Nat
deriving DecidableEq, Repr

/-- The transport-level request handle: method, protocol major version and url. -/
structure NodeReq where
  method : String
  httpVersionMajor : Nat
  url : String
deriving DecidableEq, Repr

/-- The per-request mutable response-state bag on the context: the `ctx.respond`
bypass flag, the body value, and the response facade's `_explicitNullBody`
flag. -/
structure Ctx where
  respond : JsVal
  body : Body
  explicitNullBody : Bool

/-- The state `respond` operates on: the context bag plus transport handles. -/
structure RState where
  ctx : Ctx
  req : NodeReq
  res : Res

/-- `statuses.empty[code]` of the statuses package: the "no body" statuses. -/
def emptyStatus (code : Nat) : Bool :=
  code == 204 || code == 205 || code == 304

/-- Modelled from the spec: the human-readable status message table
(`statuses[code]` of the statuses package, consulted by the response facade's
`message` getter, which is in response.js, outside src/); an unknown code has
no message, modelled as the empty (falsy) string. -/
def statusMessageOf (code : Nat) : String :=
  if code == 200 then "OK"
  else if code == 201 then "Created"
  else if code == 204 then "No Content"
  else if code == 304 then "Not Modified"
  else if code == 400 then "Bad Request"
  else if code == 404 then "Not Found"
  else if code == 500 then "Internal Server Error"
  else ""

/-- Modelled from the spec: `ctx.message` (response.js, outside src/) is the
human-readable status message — the transport's status message when set, else
the statuses-table entry for the current status; falsy (empty) when neither
exists. -/
def ctxMessage (s : RState) : String :=
  if s.res.statusMessage ≠ "" then s.res.statusMessage
  else statusMessageOf s.res.statusCode

/-- Modelled from the spec: `ctx.writable` (response.js, outside src/) — the
connection can still be written: the response has not been ended and the
socket is writable. -/
def writable (s : RState) : Bool :=
  !s.res.ended && s.res.socketWritable

/-- Modelled from the spec: the would-be body length consulted by the HEAD
branch (`ctx.response.length`, response.js, outside src/): byte count of a
buffer, UTF-8 byte length of a string, byte length of the JSON serialization
of a structured value; undefined (none) for an absent body or a stream. -/
def bodyLength : Body → Option Nat
  | .absent => none
  | .bytes l => some l.length
  | .str s => some s.utf8ByteSize
  | .stream _ => none
  | .json v => some (jsonStringify v).utf8ByteSize

/-- `res.end(payload?)`: terminates the response with the given payload.
A response that is already ended is not written again (Node rejects
write-after-end). -/
def resEnd (res : Res) (p : Option Payload) : Res :=
  if res.ended then res
  else { res with ended := true, headersSent := true, payload := p,
                  endCount := res.endCount + 1 }

/-- The textual body synthesized for an absent body (lines 290-294):
`String(code)` when the transport protocol major version is ≥ 2, else
`ctx.message || String(code)` (the status message, falling back to the code
when the message is falsy). -/
def synthBody (s : RState) : String :=
  if s.req.httpVersionMajor ≥ 2 then toString s.res.statusCode
  else if ctxMessage s ≠ "" then ctxMessage s
  else toString s.res.statusCode

/-- The body of `respond` after the bypass and writability guards
(application.js lines 264-312): the ordered body-type dispatch. -/
def respondWrite (s : RState) : RState :=
  let res := s.res
  let body := s.ctx.body
  let code := res.statusCode
  -- ignore body (statuses.empty[code])
  if emptyStatus code then
    { s with ctx := { s.ctx with body := .absent }, res := resEnd res none }
  else if s.req.method == "HEAD" then
    let res1 :=
      if !res.headersSent && res.contentLength.isNone then
        match bodyLength body with
        | some n => { res with contentLength := some n }
        | none => res
      else res
    { s with res := resEnd res1 none }
  else
    match body with
    | .absent =>
      if s.ctx.explicitNullBody then
        { s with res := resEnd { res with contentType := none,
                                          transferEncoding := none } none }
      else
        let b := synthBody s
        let res1 :=
          if !res.headersSent then
            { res with contentType := some "text/plain; charset=utf-8",
                       contentLength := some b.utf8ByteSize }
          else res
        { s with res := resEnd res1 (some (.text b)) }
    | .bytes l => { s with res := resEnd res (some (.bytes l)) }
    | .str t => { s with res := resEnd res (some (.text t)) }
    | .stream id => { s with res := { res with piped := some id } }
    | .json v =>
      let b := jsonStringify v
      let res1 :=
        if !res.headersSent then { res with contentLength := some b.utf8ByteSize }
        else res
      { s with res := resEnd res1 (some (.text b)) }

/-- `respond` after the framework-bypass guard: return unchanged when the
connection is no longer writable, else finalize. -/
def respondChecked (s : RState) : RState :=
  if !writable s then s else respondWrite s

/-- Response helper `respond(ctx)` (application.js lines 258-313): bypass when
`false === ctx.respond` (strict equality with the boolean false), then the
writability guard, then the ordered finalization rules. -/
def respond (s : RState) : RState :=
  if s.ctx.respond == JsVal.bool false then s else respondChecked s

/-- A thrown/rejected error object as the default error handler inspects it:
its `status` (strictly compared with 404), its `expose` flag, its `stack`
(empty string when absent, which is falsy) and its `toString()` rendering. -/
structure ErrObj where
  status : Option Int
  expose : Bool
  stack : String
  toStr : String
deriving DecidableEq, Repr

/-- What may reach the error handler: a recognized native error object
(`Object.prototype.toString.call(err) === "[object Error]"` or
`err instanceof Error`), or any other JavaScript value. -/
inductive ErrInput where
  | errObj (e : ErrObj)
  | nonError (v : JsVal)
deriving DecidableEq, Repr

/-- `util.format("%j", v)`: the JSON-ish rendering of a non-error value. -/
def jsValRepr : JsVal → String
  | .bool b => if b then "true" else "false"
  | .num n => toString n
  | .str s => jsonQuote s
  | .nullV => "null"
  | .undef => "undefined"

/-- `msg.replace(/^/gm, "  ")`: prefix every line of the message with two
spaces. -/
def indentLines (msg : String) : String :=
  String.intercalate "\n" ((msg.splitOn "\n").map (fun l => "  " ++ l))

/-- Default error handler `onerror(err)` (application.js lines 235-249).
Returns `.error msg` when it throws (the `TypeError` for a non-error value)
and `.ok w` when it returns normally, where `w` is what was written to the
operator-facing error stream (`none` when logging is suppressed). -/
def onerror (silent : Bool) : ErrInput → Except String (Option String)
  | .nonError v => .error ("non-error thrown: " ++ jsValRepr v)
  | .errObj e =>
    if e.status == some 404 || e.expose then .ok none
    else if silent then .ok none
    else
      let msg := if e.stack ≠ "" then e.stack else e.toStr
      .ok (some ("\n" ++ indentLines msg ++ "\n"))

/-- Modelled from the spec: the single outcome of one pipeline invocation for
one request.  `connClosed` is the completion observer registered by
`onFinished(res, onerror)` firing because the connection was closed, errored
or finished by means other than normal resolution; the spec (§4.3, §5) states
that this observer routes into the error path exactly once (`ctx.onerror`, the
deduplicating glue, lives in context.js, outside src/). -/
inductive POutcome where
  | success
  | failure (e : ErrInput)
  | connClosed (e : ErrInput)

/-- A terminal handler invocation made by the dispatcher for one request. -/
inductive DEvent where
  | finalized
  | errorHandled (e : ErrInput)
deriving DecidableEq, Repr

/-- `res.statusCode = 404` performed by the dispatcher before any handler
runs (line 184). -/
def setStatus404 (s : RState) : RState :=
  { s with res := { s.res with statusCode := 404 } }

/-- `handleRequest(ctx, fnMiddleware)` (application.js lines 182-191): set the
default status to 404, run the pipeline, then
`fnMiddleware(ctx).then(handleResponse).catch(onerror)` — on success invoke
the finalizer `respond`, on failure (including the completion observer firing
on early connection close/error) invoke the error handler.  Returns the final
state and the trace of terminal handler invocations. -/
def handleRequest (pipeline : RState → RState × POutcome) (s0 : RState) :
    RState × List DEvent :=
  let s1 := setStatus404 s0
  match pipeline s1 with
  | (s2, .success) => (respond s2, [.finalized])
  | (s2, .failure e) => (s2, [.errorHandled e])
  | (s2, .connClosed e) => (s2, [.errorHandled e])

/-- A per-request request facade (request.js template instance), with object
references modelled as numeric ids. -/
structure ReqFacade where
  selfId : Nat
  app : Nat
  req : Nat
  res : Nat
  ctxRef : Nat
  responseRef : Nat
  originalUrl : String
deriving DecidableEq, Repr

/-- A per-request response facade (response.js template instance), with object
references modelled as numeric ids. -/
structure ResFacade where
  selfId : Nat
  app : Nat
  req : Nat
  res : Nat
  ctxRef : Nat
  requestRef : Nat
deriving DecidableEq, Repr

/-- A per-request context object (context.js template instance), with object
references modelled as numeric ids and the request-scoped state map. -/
structure CtxObj where
  selfId : Nat
  app : Nat
  req : Nat
  res : Nat
  requestRef : Nat
  responseRef : Nat
  originalUrl : String
  state : List (String × JsVal)

/-- The three mutually cross-linked objects `createContext` produces. -/
structure ContextTriple where
  context : CtxObj
  request : ReqFacade
  response : ResFacade

/-- `createContext(req, res)` (application.js lines 203-226).  Object
references are modelled as numeric ids: `appId`, `reqId`, `resId` identify the
application and the transport handles, and the three freshly created objects
are given the fresh ids `base`, `base + 1`, `base + 2` (distinct calls use
disjoint allocation bases). -/
def createContext (appId : Nat) (req : NodeReq) (reqId resId : Nat)
    (base : Nat) : ContextTriple :=
  let ctxId := base
  let requestId := base + 1
  let responseId := base + 2
  { context := { selfId := ctxId, app := appId, req := reqId, res := resId,
                 requestRef := requestId, responseRef := responseId,
                 originalUrl := req.url, state := [] },
    request := { selfId := requestId, app := appId, req := reqId, res := resId,
                 ctxRef := ctxId, responseRef := responseId,
                 originalUrl := req.url },
    response := { selfId := responseId, app := appId, req := reqId,
                  res := resId, ctxRef := ctxId, requestRef := requestId } }

/-- The context/request/response state of a freshly accepted request, before
the dispatcher or any handler touches it: Node's transport response starts at
status 200 with nothing sent, and the context bag starts with `ctx.respond`
undefined, no body and the explicit-null-body flag unset. -/
def freshRes : Res :=
  { statusCode := 200, statusMessage := "", headersSent := false,
    contentLength := none, contentType := none, transferEncoding := none,
    socketWritable := true, ended := false, payload := none, endCount := 0,
    piped := none }

/-- A fresh dispatch state for a request with the given method, protocol
major version and url. -/
def freshState (method : String) (major : Nat) (url : String) : RState :=
  { ctx := { respond := .undef, body := .absent, explicitNullBody := false },
    req := { method := method, httpVersionMajor := major, url := url },
    res := freshRes }

/-- A pipeline in which no handler sets a status, a body, or touches the
response at all, and which succeeds. -/
def idPipeline : RState → RState × POutcome := fun s => (s, .success)

/-- Example state: a HEAD request with status 200 and a 42-byte string body. -/
def headEx : RState :=
  { ctx := { respond := .undef,
             body := .str "aaaaaaaaaaaaaaaaaaaaaaaaaaaaaaaaaaaaaaaaaa",
             explicitNullBody := false },
    req := { method := "HEAD", httpVersionMajor := 1, url := "/" },
    res := freshRes }

/-- Example state: status 200, absent body, explicit null-body flag set, with
content-type and transfer-encoding headers present before finalization. -/
def nullBodyEx : RState :=
  { ctx := { respond := .undef, body := .absent, explicitNullBody := true },
    req := { method := "GET", httpVersionMajor := 1, url := "/" },
    res := { freshRes with
             contentType := some "text/html",
             transferEncoding := some "chunked" } }

/-- Example state: status 200 with a structured (JSON object) body. -/
def jsonEx : RState :=
  { ctx := { respond := .undef, body := .json (.jobj [("a", .jnum 1)]),
             explicitNullBody := false },
    req := { method := "GET", httpVersionMajor := 1, url := "/" },
    res := freshRes }

/-- Example error: status 500, not exposed, with a stack trace. -/
def boomErr : ErrObj :=
  { status := some 500, expose := false, stack := "boom", toStr := "Error: boom" }

/-! ### Helper lemmas -/

/-- One `res.end` call adds at most one terminal write. -/
theorem resEnd_endCount_le (res : Res) (p : Option Payload) :
    (resEnd res p).endCount ≤ res.endCount + 1 := by
  unfold resEnd
  split <;> simp

/-- The finalization body performs at most one terminal write. -/
theorem respondWrite_endCount_le (s : RState) :
    (respondWrite s).res.endCount ≤ s.res.endCount + 1 := by
  unfold respondWrite resEnd
  cases s.ctx.body <;> dsimp only <;> repeat' split
  all_goals (try dsimp only)
  all_goals omega

/-- The finalizer performs at most one terminal write per invocation. -/
theorem respond_endCount_le (s : RState) :
    (respond s).res.endCount ≤ s.res.endCount + 1 := by
  unfold respond respondChecked
  split
  · simp
  · split
    · simp
    · exact respondWrite_endCount_le s

/-- Once the response has been ended, a further `respond` call is a no-op:
the writability guard prevents a second terminal write. -/
theorem respond_ended_noop (s : RState) (h : s.res.ended = true) :
    respond s = s := by
  unfold respond respondChecked writable
  simp [h]

/-- Under the bypass and writability guards, `respond` runs the finalization
body. -/
theorem respond_eq_write (s : RState) (h1 : s.ctx.respond ≠ JsVal.bool false)
    (h2 : writable s = true) : respond s = respondWrite s := by
  unfold respond respondChecked
  simp [h1, h2]

/-- A writable connection has not been ended. -/
theorem ended_false_of_writable (s : RState) (h : writable s = true) :
    s.res.ended = false := by
  unfold writable at h
  simp only [Bool.and_eq_true, Bool.not_eq_true'] at h
  exact h.1

/-! ### Claim theorems -/

/-- C1: the dispatcher's success and failure outcomes are mutually exclusive
and each fires at most once per request: every dispatch trace is either a
single finalizer invocation (exactly when the pipeline succeeds) or a single
error-handler invocation (exactly when the pipeline fails, including the
completion observer firing on early connection close/error); and the terminal
response is written at most once — one finalizer run adds at most one write,
and a finalizer run on an already-ended response is a no-op. -/
theorem dispatch_exactly_once (p : RState → RState × POutcome) (s : RState) :
    ((handleRequest p s).2 = [DEvent.finalized] ∨
      ∃ e, (handleRequest p s).2 = [DEvent.errorHandled e]) ∧
    ((p (setStatus404 s)).2 = POutcome.success →
      (handleRequest p s).2 = [DEvent.finalized]) ∧
    (∀ e, (p (setStatus404 s)).2 = POutcome.failure e →
      (handleRequest p s).2 = [DEvent.errorHandled e]) ∧
    (∀ e, (p (setStatus404 s)).2 = POutcome.connClosed e →
      (handleRequest p s).2 = [DEvent.errorHandled e]) ∧
    (∀ t : RState, (respond t).res.endCount ≤ t.res.endCount + 1) ∧
    (∀ t : RState, t.res.ended = true → respond t = t) := by
  refine ⟨?_, ?_, ?_, ?_, respond_endCount_le, respond_ended_noop⟩ <;>
  · rcases hp : p (setStatus404 s) with ⟨s2, out⟩
    cases out <;> simp [handleRequest, hp]

/-- C1 witness: a request whose pipeline succeeds produces exactly one
finalizer invocation. -/
theorem dispatch_exactly_once_witness :
    (handleRequest idPipeline (freshState "GET" 1 "/")).2 = [DEvent.finalized] :=
  (dispatch_exactly_once idPipeline (freshState "GET" 1 "/")).2.1 rfl

/-- C3: when the finalizer runs with a status in the "no body" set
(204, 205, 304), it clears the body on the context and ends the connection
with no payload, whatever body the handlers set; this branch precedes all
body-type dispatch. -/
theorem emptyStatus_clears_body (s : RState)
    (h1 : s.ctx.respond ≠ JsVal.bool false)
    (h2 : writable s = true)
    (h3 : emptyStatus s.res.statusCode = true) :
    (respond s).ctx.body = Body.absent ∧
    (respond s).res.payload = none ∧
    (respond s).res.ended = true := by
  rw [respond_eq_write s h1 h2]
  have he := ended_false_of_writable s h2
  unfold respondWrite resEnd
  simp [h3, he]

/-- C3 witness: status 204 with a string body yields no payload and a cleared
context body. -/
theorem emptyStatus_clears_body_witness :
    (respond { ctx := { respond := .undef, body := .str "hello",
                        explicitNullBody := false },
               req := { method := "GET", httpVersionMajor := 1, url := "/" },
               res := { freshRes with statusCode := 204 } }).ctx.body
        = Body.absent ∧
    (respond { ctx := { respond := .undef, body := .str "hello",
                        explicitNullBody := false },
               req := { method := "GET", httpVersionMajor := 1, url := "/" },
               res := { freshRes with statusCode := 204 } }).res.payload
        = none ∧
    (respond { ctx := { respond := .undef, body := .str "hello",
                        explicitNullBody := false },
               req := { method := "GET", httpVersionMajor := 1, url := "/" },
               res := { freshRes with statusCode := 204 } }).res.ended
        = true :=
  emptyStatus_clears_body _ (by decide) (by rfl) (by rfl)

/-- C10: the framework-bypass rule triggers only when `ctx.respond` is
strictly the boolean `false`: with that value `respond` returns the state
unchanged, and for every other value — including the falsy values 0, null,
undefined and the empty string — finalization proceeds to the writability
check. -/
theorem respond_bypass_strict_false :
    (∀ s : RState, s.ctx.respond = JsVal.bool false → respond s = s) ∧
    (∀ s : RState, s.ctx.respond ≠ JsVal.bool false →
      respond s = respondChecked s) ∧
    (∀ (s : RState) (v : JsVal),
      v = JsVal.num 0 ∨ v = JsVal.nullV ∨ v = JsVal.undef ∨ v = JsVal.str "" →
      respond { s with ctx := { s.ctx with respond := v } } =
        respondChecked { s with ctx := { s.ctx with respond := v } }) := by
  refine ⟨?_, ?_, ?_⟩
  · intro s h
    unfold respond
    simp [h]
  · intro s h
    unfold respond
    simp [h]
  · rintro s v (rfl | rfl | rfl | rfl) <;> (unfold respond; simp)

/-- C10 witness: with `ctx.respond` set to the falsy number 0, finalization
still proceeds to the writability check. -/
theorem respond_bypass_strict_false_witness :
    respond { freshState "GET" 1 "/" with
              ctx := { (freshState "GET" 1 "/").ctx with respond := .num 0 } } =
      respondChecked { freshState "GET" 1 "/" with
              ctx := { (freshState "GET" 1 "/").ctx with respond := .num 0 } } :=
  respond_bypass_strict_false.2.2 (freshState "GET" 1 "/") (JsVal.num 0)
    (Or.inl rfl)

/-- C2: before any handler runs the dispatcher sets the transport status to
404; a pipeline in which no handler sets a status or a body therefore ends
with status 404 and a synthesized textual payload — "404" when the protocol
major version is ≥ 2, else the status message "Not Found" — with
content-length equal to that payload's byte length. -/
theorem default_status_404 (major : Nat) :
    ((handleRequest idPipeline (freshState "GET" major "/")).1.res.statusCode
        = 404) ∧
    ((handleRequest idPipeline (freshState "GET" major "/")).1.res.payload =
      some (.text (if 2 ≤ major then "404" else "Not Found"))) ∧
    ((handleRequest idPipeline (freshState "GET" major "/")).1.res.contentLength
        = some (if 2 ≤ major then 3 else 9)) ∧
    ((handleRequest idPipeline (freshState "GET" major "/")).1.res.ended
        = true) := by
  by_cases h : 2 ≤ major <;>
    simp [handleRequest, idPipeline, setStatus404, freshState, freshRes, respond,
          respondChecked, respondWrite, writable, resEnd, emptyStatus, synthBody,
          ctxMessage, statusMessageOf, h] <;> decide

/-- C4: for a HEAD request on which no earlier rule matched, with headers
unsent and no explicit content-length header, the finalizer ends the
connection with no payload and, when the would-be body length is defined,
sets content-length to it. -/
theorem head_no_payload (s : RState)
    (h1 : s.ctx.respond ≠ JsVal.bool false)
    (h2 : writable s = true)
    (h3 : emptyStatus s.res.statusCode = false)
    (h4 : s.req.method = "HEAD")
    (h5 : s.res.headersSent = false)
    (h6 : s.res.contentLength = none) :
    (respond s).res.payload = none ∧
    (respond s).res.ended = true ∧
    (∀ n, bodyLength s.ctx.body = some n →
      (respond s).res.contentLength = some n) := by
  rw [respond_eq_write s h1 h2]
  have he := ended_false_of_writable s h2
  unfold respondWrite resEnd
  cases hbl : bodyLength s.ctx.body <;>
    simp [h3, h4, h5, h6, he, hbl]

/-- C4 witness: a HEAD request with status 200 and a string body of byte
length 42 yields no payload but content-length 42. -/
theorem head_no_payload_witness :
    (respond headEx).res.payload = none ∧
    (respond headEx).res.contentLength = some 42 :=
  ⟨(head_no_payload headEx (by decide) rfl rfl rfl rfl rfl).1,
   (head_no_payload headEx (by decide) rfl rfl rfl rfl rfl).2.2 42 (by decide)⟩

/-- C5: when the finalizer runs with an absent body and no earlier rule
matched: with the explicit null-body flag set it strips content-type and
transfer-encoding and ends with no payload; otherwise it synthesizes the
textual body (`synthBody`), ends with it as payload, and — when headers are
unsent — sets content-type to plain text and content-length to the
synthesized body's byte length. -/
theorem null_body_finalization (s : RState)
    (h1 : s.ctx.respond ≠ JsVal.bool false)
    (h2 : writable s = true)
    (h3 : emptyStatus s.res.statusCode = false)
    (h4 : ¬ s.req.method = "HEAD")
    (h5 : s.ctx.body = Body.absent) :
    (s.ctx.explicitNullBody = true →
      (respond s).res.contentType = none ∧
      (respond s).res.transferEncoding = none ∧
      (respond s).res.payload = none ∧
      (respond s).res.ended = true) ∧
    (s.ctx.explicitNullBody = false →
      (respond s).res.payload = some (Payload.text (synthBody s)) ∧
      (respond s).res.ended = true ∧
      (s.res.headersSent = false →
        (respond s).res.contentType = some "text/plain; charset=utf-8" ∧
        (respond s).res.contentLength = some (synthBody s).utf8ByteSize)) := by
  rw [respond_eq_write s h1 h2]
  have he := ended_false_of_writable s h2
  unfold respondWrite resEnd
  constructor
  · intro hE
    simp [h3, h4, h5, hE, he]
  · intro hE
    cases hhs : s.res.headersSent <;>
      simp [h3, h4, h5, hE, he, hhs]

/-- C5 witness: status 200, an absent body and the explicit null-body flag
yield a response with no payload and the content-type and transfer-encoding
headers stripped. -/
theorem null_body_finalization_witness :
    (respond nullBodyEx).res.contentType = none ∧
    (respond nullBodyEx).res.transferEncoding = none ∧
    (respond nullBodyEx).res.payload = none :=
  ⟨((null_body_finalization nullBodyEx (by decide) rfl rfl (by decide) rfl).1
      rfl).1,
   ((null_body_finalization nullBodyEx (by decide) rfl rfl (by decide) rfl).1
      rfl).2.1,
   ((null_body_finalization nullBodyEx (by decide) rfl rfl (by decide) rfl).1
      rfl).2.2.1⟩

/-- C6: when the finalizer runs with a present body and no earlier rule
matched, dispatch is by the body's runtime type: a byte sequence or string is
written verbatim as the payload; a stream is piped to the connection with the
payload, ended flag and content-length untouched; any other value is
JSON-serialized, content-length is set to the encoded byte length when
headers are unsent, and the encoding is written as the payload. -/
theorem body_type_dispatch (s : RState)
    (h1 : s.ctx.respond ≠ JsVal.bool false)
    (h2 : writable s = true)
    (h3 : emptyStatus s.res.statusCode = false)
    (h4 : ¬ s.req.method = "HEAD") :
    (∀ l, s.ctx.body = Body.bytes l →
      (respond s).res.payload = some (Payload.bytes l) ∧
      (respond s).res.ended = true) ∧
    (∀ t, s.ctx.body = Body.str t →
      (respond s).res.payload = some (Payload.text t) ∧
      (respond s).res.ended = true) ∧
    (∀ i, s.ctx.body = Body.stream i →
      (respond s).res.piped = some i ∧
      (respond s).res.payload = s.res.payload ∧
      (respond s).res.ended = s.res.ended ∧
      (respond s).res.contentLength = s.res.contentLength) ∧
    (∀ v, s.ctx.body = Body.json v →
      (respond s).res.payload = some (Payload.text (jsonStringify v)) ∧
      (respond s).res.ended = true ∧
      (s.res.headersSent = false →
        (respond s).res.contentLength =
          some (jsonStringify v).utf8ByteSize)) := by
  rw [respond_eq_write s h1 h2]
  have he := ended_false_of_writable s h2
  unfold respondWrite resEnd
  refine ⟨?_, ?_, ?_, ?_⟩
  · intro l hb
    simp [h3, h4, hb, he]
  · intro t hb
    simp [h3, h4, hb, he]
  · intro i hb
    simp [h3, h4, hb, he]
  · intro v hb
    cases hhs : s.res.headersSent <;>
      simp [h3, h4, hb, he, hhs]

/-- C6 witness: a structured body is written as its JSON serialization, with
content-length equal to that serialization's byte length. -/
theorem body_type_dispatch_witness :
    (respond jsonEx).res.payload =
      some (Payload.text (jsonStringify (.jobj [("a", .jnum 1)]))) ∧
    (respond jsonEx).res.contentLength =
      some (jsonStringify (.jobj [("a", .jnum 1)])).utf8ByteSize :=
  ⟨((body_type_dispatch jsonEx (by decide) rfl rfl (by decide)).2.2.2
      (.jobj [("a", .jnum 1)]) rfl).1,
   ((body_type_dispatch jsonEx (by decide) rfl rfl (by decide)).2.2.2
      (.jobj [("a", .jnum 1)]) rfl).2.2 rfl⟩

/-- C7: the default error handler suppresses logging exactly when the error's
status is 404, the error carries the expose flag, or the application is
silent; in every other case it writes the error's stack (falling back to its
string form) to the operator error stream with each line indented. -/
theorem onerror_suppression (silent : Bool) (e : ErrObj) :
    (onerror silent (.errObj e) = .ok none ↔
      (e.status = some 404 ∨ e.expose = true ∨ silent = true)) ∧
    (e.status ≠ some 404 → e.expose = false → silent = false →
      onerror silent (.errObj e) =
        .ok (some ("\n" ++
          indentLines (if e.stack ≠ "" then e.stack else e.toStr) ++ "\n"))) := by
  unfold onerror
  constructor
  · by_cases hs : e.status = some 404 <;>
      cases he : e.expose <;> cases silent <;> simp [hs, he]
  · intro hs he hsil
    simp [hs, he, hsil]

/-- C7 witness: an error with status 500, no expose flag and silent=false is
written, indented, to the operator error stream. -/
theorem onerror_suppression_witness :
    onerror false (.errObj boomErr) =
      .ok (some ("\n" ++
        indentLines (if boomErr.stack ≠ "" then boomErr.stack else boomErr.toStr)
        ++ "\n")) :=
  (onerror_suppression false boomErr).2 (by decide) rfl rfl

/-- C8: the default error handler returns normally on every recognized error
object — it is the terminal sink for pipeline failures — and when invoked
with a value that is not a recognized error object it escalates by throwing
the distinct "non-error thrown" TypeError. -/
theorem onerror_terminal_sink (silent : Bool) :
    (∀ e : ErrObj, ∃ w, onerror silent (.errObj e) = Except.ok w) ∧
    (∀ v : JsVal, onerror silent (.nonError v) =
      Except.error ("non-error thrown: " ++ jsValRepr v)) := by
  constructor
  · intro e
    simp only [onerror]
    split
    · exact ⟨none, rfl⟩
    · split
      · exact ⟨none, rfl⟩
      · exact ⟨_, rfl⟩
  · intro v
    rfl

/-- C9: context construction produces a fresh mutually cross-linked triple:
the context references both facades, each facade references the context and
the other facade, all three share the application reference and the transport
request/response handles, the request-scoped state map starts empty, and the
original url is captured verbatim from the transport request; the three
objects are distinct fresh allocations. -/
theorem createContext_cross_links (appId : Nat) (req : NodeReq)
    (reqId resId base : Nat) :
    ((createContext appId req reqId resId base).context.requestRef =
      (createContext appId req reqId resId base).request.selfId) ∧
    ((createContext appId req reqId resId base).context.responseRef =
      (createContext appId req reqId resId base).response.selfId) ∧
    ((createContext appId req reqId resId base).request.ctxRef =
      (createContext appId req reqId resId base).context.selfId) ∧
    ((createContext appId req reqId resId base).request.responseRef =
      (createContext appId req reqId resId base).response.selfId) ∧
    ((createContext appId req reqId resId base).response.ctxRef =
      (createContext appId req reqId resId base).context.selfId) ∧
    ((createContext appId req reqId resId base).response.requestRef =
      (createContext appId req reqId resId base).request.selfId) ∧
    ((createContext appId req reqId resId base).context.app = appId ∧
      (createContext appId req reqId resId base).request.app = appId ∧
      (createContext appId req reqId resId base).response.app = appId) ∧
    ((createContext appId req reqId resId base).context.req = reqId ∧
      (createContext appId req reqId resId base).request.req = reqId ∧
      (createContext appId req reqId resId base).response.req = reqId) ∧
    ((createContext appId req reqId resId base).context.res = resId ∧
      (createContext appId req reqId resId base).request.res = resId ∧
      (createContext appId req reqId resId base).response.res = resId) ∧
    ((createContext appId req reqId resId base).context.state = []) ∧
    ((createContext appId req reqId resId base).context.originalUrl = req.url ∧
      (createContext appId req reqId resId base).request.originalUrl
        = req.url) ∧
    ((createContext appId req reqId resId base).context.selfId ≠
        (createContext appId req reqId resId base).request.selfId ∧
      (createContext appId req reqId resId base).context.selfId ≠
        (createContext appId req reqId resId base).response.selfId ∧
      (createContext appId req reqId resId base).request.selfId ≠
        (createContext appId req reqId resId base).response.selfId) ∧
    (base ≤ (createContext appId req reqId resId base).context.selfId ∧
      base ≤ (createContext appId req reqId resId base).request.selfId ∧
      base ≤ (createContext appId req reqId resId base).response.selfId) := by
  simp [createContext]
